import Mathlib

/-!
# Verification of tokenator's usage accounting

A shallow embedding, in Lean 4, of the token-usage accounting logic of the
`tokenator` Python library: the per-provider response-usage extraction
(`anthropic/client_anthropic.py`, `gemini/client_gemini.py`,
`openai/client_openai.py`), the streaming interceptors
(`openai/stream_interceptors.py`), the cost computation and the query service
(`usage.py`), and the logging guard (`base_wrapper.py`).

Python integers are embedded as `Int` (they are unbounded), monetary values as
`ℚ` (the claims under study never depend on binary floating-point rounding),
`Optional[T]` fields as `Option T`, and Python truthiness is made explicit by
small helper predicates.  Python dictionaries that preserve insertion order
(`dict`) are embedded as association lists.
-/

namespace Tokenator

/-- Python truthiness of an `Optional[int]`: `None` and `0` are falsy. -/
def optIntTruthy : Option Int → Bool
  | none => false
  | some n => n != 0

/-- Python truthiness of an `Optional[float]` (embedded as `Option ℚ`):
`None` and `0.0` are falsy. -/
def optRatTruthy : Option ℚ → Bool
  | none => false
  | some q => q != 0

/-- Python truthiness of an `int`. -/
def intTruthy (n : Int) : Bool := n != 0

/-- Python truthiness of a `str`: the empty string is falsy. -/
def strTruthy (s : String) : Bool := s != ""

/-- Python `x or d` on an `Optional[int]` with an integer default:
`None` and `0` both give the default. -/
def orDefaultInt (x : Option Int) (d : Int) : Int :=
  match x with
  | none => d
  | some n => if n = 0 then d else n

/-- Python `x or d` on an `Optional[str]`: `None` and `""` both give the
default. -/
def orDefaultStr (x : Option String) (d : String) : String :=
  match x with
  | none => d
  | some s => if s = "" then d else s

/-! ## `models.py`: the pydantic data model -/

/-- `models.TokenRate` — per-token prices for one pricing-table entry. -/
structure TokenRate where
  prompt : ℚ
  completion : ℚ
  prompt_audio : Option ℚ := none
  completion_audio : Option ℚ := none
  prompt_cached_input : Option ℚ := none
  prompt_cached_creation : Option ℚ := none
deriving Repr, DecidableEq

/-- `models.PromptTokenDetails`. -/
structure PromptTokenDetails where
  cached_input_tokens : Option Int := none
  cached_creation_tokens : Option Int := none
  audio_tokens : Option Int := none
deriving Repr, DecidableEq

/-- `models.CompletionTokenDetails`. -/
structure CompletionTokenDetails where
  reasoning_tokens : Option Int := none
  audio_tokens : Option Int := none
  accepted_prediction_tokens : Option Int := none
  rejected_prediction_tokens : Option Int := none
deriving Repr, DecidableEq

/-- `models.TokenMetrics` — the common metric block. -/
structure TokenMetrics where
  total_cost : ℚ := 0
  total_tokens : Int := 0
  prompt_tokens : Int := 0
  completion_tokens : Int := 0
  prompt_tokens_details : Option PromptTokenDetails := none
  completion_tokens_details : Option CompletionTokenDetails := none
deriving Repr, DecidableEq

/-- `models.ModelUsage` — metrics plus the model name. -/
structure ModelUsage extends TokenMetrics where
  model : String
deriving Repr, DecidableEq

/-- `models.ProviderUsage` — metrics plus the provider name and per-model
breakdown. -/
structure ProviderUsage extends TokenMetrics where
  provider : String
  models : List ModelUsage := []
deriving Repr, DecidableEq

/-- `models.TokenUsageReport` — metrics plus the per-provider breakdown. -/
structure TokenUsageReport extends TokenMetrics where
  providers : List ProviderUsage := []
deriving Repr, DecidableEq

/-- `TokenUsageReport()` default-constructed: all metrics zero, no details,
empty providers list. -/
def TokenUsageReport.empty : TokenUsageReport := {}

/-- `models.TokenUsageStats` — what a wrapper hands to `_log_usage`. -/
structure TokenUsageStats where
  model : String
  usage : TokenMetrics
deriving Repr, DecidableEq

/-! ## `anthropic/client_anthropic.py`: response usage extraction -/

/-- The `usage` block of a typed `anthropic.types.Message`: `input_tokens` and
`output_tokens` are plain ints; the cache counters are optional ints. -/
structure AnthropicUsage where
  input_tokens : Int
  output_tokens : Int
  cache_creation_input_tokens : Option Int := none
  cache_read_input_tokens : Option Int := none
deriving Repr, DecidableEq

/-- A typed `anthropic.types.Message`, restricted to the fields the wrapper
reads.  `usage` is wrapped in `Option` to embed the `hasattr(response,
"usage")` guard. -/
structure AnthropicMessage where
  model : String
  usage : Option AnthropicUsage
deriving Repr, DecidableEq

/-- `BaseAnthropicWrapper._process_response_usage`, typed-`Message` branch.
`getattr(usage, "cache_creation_input_tokens", 0) or 0` embeds to
`orDefaultInt ... 0` (the attribute exists on the typed object, possibly
`None`); `total_tokens` is `input_tokens + output_tokens` — the cache-creation
count is *not* added to the total. -/
def processAnthropicMessage (response : AnthropicMessage) : Option TokenUsageStats :=
  match response.usage with
  | none => none
  | some u =>
    some
      { model := response.model
        usage :=
          { prompt_tokens := u.input_tokens + orDefaultInt u.cache_creation_input_tokens 0
            completion_tokens := u.output_tokens
            total_tokens := u.input_tokens + u.output_tokens
            prompt_tokens_details :=
              some
                { cached_input_tokens := u.cache_read_input_tokens
                  cached_creation_tokens := u.cache_creation_input_tokens } } }

/-- An Anthropic response presented as a plain mapping: the `usage` value,
restricted to the keys the wrapper might touch.  A `none` field means the key
is absent from the dict. -/
structure AnthropicUsageDict where
  input_tokens : Option Int := none
  output_tokens : Option Int := none
  cache_read_input_tokens : Option Int := none
  cache_creation_input_tokens : Option Int := none
deriving Repr, DecidableEq

/-- Python truthiness of the usage dict: a dict is falsy iff it is empty
(holds none of its possible keys). -/
def AnthropicUsageDict.truthy (d : AnthropicUsageDict) : Bool :=
  d.input_tokens.isSome || d.output_tokens.isSome ||
    d.cache_read_input_tokens.isSome || d.cache_creation_input_tokens.isSome

/-- An Anthropic response presented as a plain dict (`"model"` and `"usage"`
keys, each possibly absent). -/
structure AnthropicResponseDict where
  model : Option String := none
  usage : Option AnthropicUsageDict := none
deriving Repr, DecidableEq

/-- Python `getattr(d, name, default)` where `d` is a plain `dict`: item keys
are not attributes of the dict object, so the lookup always falls through to
the default, whatever keys the dict holds. -/
def dictGetattr {α β : Type} (_d : α) (default : β) : β := default

/-- `BaseAnthropicWrapper._process_response_usage`, `dict` branch.  Token
counts come from `.get(key, 0)`; the cache counters are fetched with
`getattr` on the dict, which always yields the default (`0` after `or 0` for
the prompt addition, `None` for both detail fields). -/
def processAnthropicDict (response : AnthropicResponseDict) : Option TokenUsageStats :=
  match response.usage with
  | none => none
  | some d =>
    if !d.truthy then none
    else
      some
        { model := response.model.getD "unknown"
          usage :=
            { prompt_tokens := d.input_tokens.getD 0 + orDefaultInt (dictGetattr d (some 0)) 0
              completion_tokens := d.output_tokens.getD 0
              total_tokens := d.input_tokens.getD 0 + d.output_tokens.getD 0
              prompt_tokens_details :=
                some
                  { cached_input_tokens := dictGetattr d none
                    cached_creation_tokens := dictGetattr d none } } }

/-! ## `gemini/client_gemini.py`: the streaming usage callback -/

/-- The `usage_metadata` block of a `GenerateContentResponse` chunk: the code
reads `prompt_token_count` and `total_token_count` directly and defaults only
`candidates_token_count` (`or 0`). -/
structure GeminiUsageMetadata where
  prompt_token_count : Int
  candidates_token_count : Option Int := none
  total_token_count : Int
deriving Repr, DecidableEq

/-- A streamed `GenerateContentResponse` chunk, restricted to what the
callback reads.  `if last_chunk.usage_metadata:` is a `None` check (a present
pydantic object is always truthy). -/
structure GeminiChunk where
  model_version : String
  usage_metadata : Option GeminiUsageMetadata := none
deriving Repr, DecidableEq

/-- `gemini/client_gemini.py::_create_usage_callback`'s inner
`usage_callback`, as a function from the intercepted chunk list to the row it
logs (`none` = no `log_usage_fn` call).  `enabled` is
`state.is_tokenator_enabled`.  The model comes from `chunks[0].model_version`;
the token counts come from the *last* chunk's `usage_metadata` alone, and
nothing is logged when the last chunk carries no usage metadata. -/
def geminiUsageCallback (enabled : Bool) (chunks : List GeminiChunk) :
    Option TokenUsageStats :=
  match chunks with
  | [] => none
  | c0 :: rest =>
    if !enabled then none
    else
      let lastChunk := (c0 :: rest).getLast (by simp)
      match lastChunk.usage_metadata with
      | none => none
      | some meta =>
        some
          { model := c0.model_version
            usage :=
              { prompt_tokens := meta.prompt_token_count
                completion_tokens := meta.candidates_token_count.getD 0
                total_tokens := meta.total_token_count } }

/-! ## `openai/client_openai.py`: the streaming usage callback -/

/-- The `usage` block of a `ChatCompletionChunk`. -/
structure OpenAIChunkUsage where
  prompt_tokens : Int
  completion_tokens : Int
  total_tokens : Int
deriving Repr, DecidableEq

/-- A streamed `ChatCompletionChunk`, restricted to what the callback reads.
`if ch.usage:` is a `None` check on the pydantic object. -/
structure OpenAIChunk where
  model : String
  usage : Option OpenAIChunkUsage := none
deriving Repr, DecidableEq

/-- `openai/client_openai.py::_create_usage_callback`'s inner
`usage_callback`: sums `prompt_tokens` / `completion_tokens` / `total_tokens`
over exactly the chunks whose `usage` is non-null, and logs only when at
least one chunk carried usage (`has_usage`). -/
def openaiUsageCallback (enabled : Bool) (chunks : List OpenAIChunk) :
    Option TokenUsageStats :=
  match chunks with
  | [] => none
  | c0 :: rest =>
    if !enabled then none
    else
      let withUsage := (c0 :: rest).filterMap (fun c => c.usage)
      if withUsage.isEmpty then none
      else
        some
          { model := c0.model
            usage :=
              { prompt_tokens := (withUsage.map (fun u => u.prompt_tokens)).sum
                completion_tokens := (withUsage.map (fun u => u.completion_tokens)).sum
                total_tokens := (withUsage.map (fun u => u.total_tokens)).sum } }

/-! ## `openai/stream_interceptors.py`: the sync stream interceptor

`OpenAISyncStreamInterceptor.__next__` pulls a chunk from the base stream,
appends it to `self._chunks` and returns it; when the base stream raises
`StopIteration` it invokes `self._usage_callback(self._chunks)` (if a callback
was supplied and at least one chunk was seen) and re-raises; any other
exception from the base stream propagates immediately with no callback.

We model the base stream extensionally as the trace a caller draining it
observes: a list of chunks followed by either graceful exhaustion
(`failure = none`) or an exception (`failure = some e`).  `runInterceptor`
replays `__next__` call by call over that trace, threading the interceptor's
`_chunks` state, and records what the caller receives, every callback
invocation (with its argument), and how the iteration ends. -/

/-- How a drained stream ends: graceful exhaustion (`StopIteration`) or a
propagated exception. -/
inductive StreamOutcome (ε : Type) where
  | exhausted : StreamOutcome ε
  | raised : ε → StreamOutcome ε
deriving Repr, DecidableEq

/-- What a caller draining the intercepted stream observes. -/
structure RunResult (χ ε : Type) where
  yielded : List χ
  callbackCalls : List (List χ)
  outcome : StreamOutcome ε
deriving Repr, DecidableEq

/-- One `__next__`-at-a-time replay of the interceptor over the base stream's
remaining trace.  `st` is `self._chunks`; `yielded` and `calls` accumulate
what the caller has received and the callback invocations so far. -/
def interceptorRun {χ ε : Type} (hasCallback : Bool) :
    List χ → Option ε → List χ → List χ → List (List χ) → RunResult χ ε
  | c :: pending, failure, st, yielded, calls =>
    interceptorRun hasCallback pending failure (st ++ [c]) (yielded ++ [c]) calls
  | [], some e, _st, yielded, calls =>
    { yielded := yielded, callbackCalls := calls, outcome := .raised e }
  | [], none, st, yielded, calls =>
    if hasCallback && !st.isEmpty then
      { yielded := yielded, callbackCalls := calls ++ [st], outcome := .exhausted }
    else
      { yielded := yielded, callbackCalls := calls, outcome := .exhausted }

/-- Draining the interceptor from its initial state (`self._chunks = []`). -/
def runInterceptor {χ ε : Type} (hasCallback : Bool) (chunks : List χ)
    (failure : Option ε) : RunResult χ ε :=
  interceptorRun hasCallback chunks failure [] [] []

/-! ## `schemas.py`: a stored `token_usage` row -/

/-- `schemas.TokenUsage` — one logged row.  `created_at` is embedded as an
integer timestamp (seconds); the optional detail columns are nullable. -/
structure TokenUsage where
  execution_id : String
  provider : String
  model : String
  created_at : Int
  total_cost : Int := 0
  prompt_tokens : Int
  completion_tokens : Int
  total_tokens : Int
  prompt_cached_input_tokens : Option Int := none
  prompt_cached_creation_tokens : Option Int := none
  prompt_audio_tokens : Option Int := none
  completion_audio_tokens : Option Int := none
  completion_reasoning_tokens : Option Int := none
  completion_accepted_prediction_tokens : Option Int := none
  completion_rejected_prediction_tokens : Option Int := none
deriving Repr, DecidableEq

/-! ## `usage.py`: pricing-key resolution and cost computation

`self.MODEL_COSTS` is a Python dict from model key to `TokenRate`; dicts
preserve insertion order and a new key is appended at the end, so it embeds
as an association list. -/

/-- The pricing table. -/
abbrev ModelCosts := List (String × TokenRate)

/-- Dict key lookup in the pricing table. -/
def lookupRate (costs : ModelCosts) (key : String) : Option TokenRate :=
  (costs.find? (fun kv => kv.1 = key)).map (fun kv => kv.2)

/-- Substring occurrence over character lists: the needle is a prefix of the
hay or occurs in its tail (the empty needle occurs everywhere). -/
def charListContains (needle : List Char) : List Char → Bool
  | [] => needle.isEmpty
  | c :: t => needle.isPrefixOf (c :: t) || charListContains needle t

/-- Python `needle in hay` on strings: substring containment (the empty
needle is contained in every string). -/
def containsSubstr (needle hay : String) : Bool :=
  charListContains needle.data hay.data

/-- The hard-coded `GPT4O_PRICING` fallback `TokenRate` from
`TokenUsageService._calculate_cost` (`0.0000025` prompt, `0.000010`
completion, `0.0001` / `0.0002` audio, `0.00000125` cached). -/
def GPT4O_PRICING : TokenRate :=
  { prompt := 25 / 10000000
    completion := 10 / 1000000
    prompt_audio := some (1 / 10000)
    completion_audio := some (2 / 10000)
    prompt_cached_input := some (125 / 100000000)
    prompt_cached_creation := some (125 / 100000000) }

/-- The model-key resolution step of `_calculate_cost`'s first loop: the
row's model verbatim if it is a pricing key; else `"<provider>/<model>"`;
else the first pricing key containing the model as a substring
(`matched_keys[0]`); else register `GPT4O_PRICING` under the bare model
string (a dict insertion, appended at the end).  Returns the resolved key and
the (possibly extended) pricing table. -/
def resolveModelKey (costs : ModelCosts) (provider model : String) :
    String × ModelCosts :=
  if (lookupRate costs model).isSome then
    (model, costs)
  else if (lookupRate costs (provider ++ "/" ++ model)).isSome then
    (provider ++ "/" ++ model, costs)
  else
    let matched_keys := (costs.map (fun kv => kv.1)).filter (fun k => containsSubstr model k)
    match matched_keys with
    | k :: _ => (k, costs)
    | [] => (model, costs ++ [(model, GPT4O_PRICING)])

/-- `provider_model_usages` — a dict from provider key to a dict from
resolved model key to the rows grouped under it, both insertion-ordered. -/
abbrev ProviderModelUsages := List (String × List (String × List TokenUsage))

/-- `setdefault(model_key, []).append(usage)` on the inner dict. -/
def addToModelGroups (groups : List (String × List TokenUsage)) (key : String)
    (u : TokenUsage) : List (String × List TokenUsage) :=
  match groups with
  | [] => [(key, [u])]
  | (k, us) :: rest =>
    if k = key then (k, us ++ [u]) :: rest
    else (k, us) :: addToModelGroups rest key u

/-- `setdefault(provider_key, {})` then the inner `setdefault`/`append`. -/
def addToProviderGroups (groups : ProviderModelUsages) (pkey key : String)
    (u : TokenUsage) : ProviderModelUsages :=
  match groups with
  | [] => [(pkey, [(key, [u])])]
  | (p, mgs) :: rest =>
    if p = pkey then (p, addToModelGroups mgs key u) :: rest
    else (p, mgs) :: addToProviderGroups rest pkey key u

/-- One iteration of `_calculate_cost`'s first loop: resolve the row's
pricing key (mutating `MODEL_COSTS` on fallback) and file the row under
`usage.provider or "default"` then under the resolved model key. -/
def groupStep (acc : ModelCosts × ProviderModelUsages) (u : TokenUsage) :
    ModelCosts × ProviderModelUsages :=
  let resolved := resolveModelKey acc.1 u.provider u.model
  let pkey := if strTruthy u.provider then u.provider else "default"
  (resolved.2, addToProviderGroups acc.2 pkey resolved.1 u)

/-- The first loop of `_calculate_cost` over all rows. -/
def groupUsages (costs : ModelCosts) (usages : List TokenUsage) :
    ModelCosts × ProviderModelUsages :=
  usages.foldl groupStep (costs, [])

/-- The per-row text-portion prompt tokens of `_calculate_cost`: two
*sequential* truthiness-guarded reassignments, so when both a cache count and
an audio count are recorded the audio subtraction overwrites the cache
subtraction. -/
def promptTextTokens (u : TokenUsage) : Int :=
  let t := u.prompt_tokens
  let t := if optIntTruthy u.prompt_cached_input_tokens then
      u.prompt_tokens - u.prompt_cached_input_tokens.getD 0
    else t
  let t := if optIntTruthy u.prompt_audio_tokens then
      u.prompt_tokens - u.prompt_audio_tokens.getD 0
    else t
  t

/-- The per-row text-portion completion tokens of `_calculate_cost`. -/
def completionTextTokens (u : TokenUsage) : Int :=
  if optIntTruthy u.completion_audio_tokens then
    u.completion_tokens - u.completion_audio_tokens.getD 0
  else u.completion_tokens

/-- The per-row cost contribution of `_calculate_cost`'s inner loop: text
prompt/completion cost, plus audio and cached token costs when both the count
and the corresponding rate are truthy. -/
def usageCost (rates : TokenRate) (u : TokenUsage) : ℚ :=
  let c : ℚ := (promptTextTokens u : ℚ) * rates.prompt +
    (completionTextTokens u : ℚ) * rates.completion
  let c := if optIntTruthy u.prompt_audio_tokens && optRatTruthy rates.prompt_audio then
      c + (u.prompt_audio_tokens.getD 0 : ℚ) * rates.prompt_audio.getD 0
    else c
  let c := if optIntTruthy u.completion_audio_tokens && optRatTruthy rates.completion_audio then
      c + (u.completion_audio_tokens.getD 0 : ℚ) * rates.completion_audio.getD 0
    else c
  let c := if optIntTruthy u.prompt_cached_input_tokens && optRatTruthy rates.prompt_cached_input then
      c + (u.prompt_cached_input_tokens.getD 0 : ℚ) * rates.prompt_cached_input.getD 0
    else c
  let c := if optIntTruthy u.prompt_cached_creation_tokens && optRatTruthy rates.prompt_cached_creation then
      c + (u.prompt_cached_creation_tokens.getD 0 : ℚ) * rates.prompt_cached_creation.getD 0
    else c
  c

/-- Python `round(x, 6)` (ties differ — Python rounds half to even — but no
property verified here touches a tie). -/
def round6 (x : ℚ) : ℚ := (round (x * 1000000) : ℚ) / 1000000

/-- Sum of an optional per-row detail column with `or 0`
(`sum(u.f or 0 for u in usages)`). -/
def sumOptField (f : TokenUsage → Option Int) (usages : List TokenUsage) : Int :=
  (usages.map (fun u => (f u).getD 0)).sum

/-- The unrounded per-model-group cost (`model_cost` before `round`). -/
def modelGroupCost (rates : TokenRate) (usages : List TokenUsage) : ℚ :=
  (usages.map (usageCost rates)).sum

/-- The `ModelUsage` entry `_calculate_cost` appends for one model group:
rounded cost, raw token sums, and the detail blocks present only when some
row has a truthy corresponding count. -/
def mkModelUsage (rates : TokenRate) (model_key : String)
    (usages : List TokenUsage) : ModelUsage :=
  { model := model_key
    total_cost := round6 (modelGroupCost rates usages)
    total_tokens := (usages.map (fun u => u.total_tokens)).sum
    prompt_tokens := (usages.map (fun u => u.prompt_tokens)).sum
    completion_tokens := (usages.map (fun u => u.completion_tokens)).sum
    prompt_tokens_details :=
      if usages.any (fun u =>
          optIntTruthy u.prompt_cached_input_tokens ||
          optIntTruthy u.prompt_cached_creation_tokens ||
          optIntTruthy u.prompt_audio_tokens) then
        some
          { cached_input_tokens := some (sumOptField (fun u => u.prompt_cached_input_tokens) usages)
            cached_creation_tokens := some (sumOptField (fun u => u.prompt_cached_creation_tokens) usages)
            audio_tokens := some (sumOptField (fun u => u.prompt_audio_tokens) usages) }
      else none
    completion_tokens_details :=
      if usages.any (fun u =>
          optIntTruthy u.completion_audio_tokens ||
          optIntTruthy u.completion_reasoning_tokens ||
          optIntTruthy u.completion_accepted_prediction_tokens ||
          optIntTruthy u.completion_rejected_prediction_tokens) then
        some
          { audio_tokens := some (sumOptField (fun u => u.completion_audio_tokens) usages)
            reasoning_tokens := some (sumOptField (fun u => u.completion_reasoning_tokens) usages)
            accepted_prediction_tokens :=
              some (sumOptField (fun u => u.completion_accepted_prediction_tokens) usages)
            rejected_prediction_tokens :=
              some (sumOptField (fun u => u.completion_rejected_prediction_tokens) usages) }
      else none }

/-- The rate used for a resolved model key in the second phase
(`self.MODEL_COSTS[model_key]`).  Every key produced by `resolveModelKey`
is present in the final table, so the `getD` default is unreachable. -/
def rateFor (costs : ModelCosts) (key : String) : TokenRate :=
  (lookupRate costs key).getD GPT4O_PRICING

/-- `provider_metrics` — the accumulator dict of `_calculate_cost`'s
provider loop. -/
structure ProviderMetrics where
  total_cost : ℚ := 0
  total_tokens : Int := 0
  prompt_tokens : Int := 0
  completion_tokens : Int := 0
  prompt_cached_input_tokens : Int := 0
  prompt_cached_creation_tokens : Int := 0
  prompt_audio_tokens : Int := 0
  completion_audio_tokens : Int := 0
  completion_reasoning_tokens : Int := 0
  completion_accepted_prediction_tokens : Int := 0
  completion_rejected_prediction_tokens : Int := 0
deriving Repr, DecidableEq

/-- One model group's update of `provider_metrics` (note `total_cost`
accumulates the *unrounded* `model_cost`). -/
def updateProviderMetrics (costs : ModelCosts) (pm : ProviderMetrics)
    (group : String × List TokenUsage) : ProviderMetrics :=
  let rates := rateFor costs group.1
  let usages := group.2
  { total_cost := pm.total_cost + modelGroupCost rates usages
    total_tokens := pm.total_tokens + (usages.map (fun u => u.total_tokens)).sum
    prompt_tokens := pm.prompt_tokens + (usages.map (fun u => u.prompt_tokens)).sum
    completion_tokens := pm.completion_tokens + (usages.map (fun u => u.completion_tokens)).sum
    prompt_cached_input_tokens := pm.prompt_cached_input_tokens +
      sumOptField (fun u => u.prompt_cached_input_tokens) usages
    prompt_cached_creation_tokens := pm.prompt_cached_creation_tokens +
      sumOptField (fun u => u.prompt_cached_creation_tokens) usages
    prompt_audio_tokens := pm.prompt_audio_tokens +
      sumOptField (fun u => u.prompt_audio_tokens) usages
    completion_audio_tokens := pm.completion_audio_tokens +
      sumOptField (fun u => u.completion_audio_tokens) usages
    completion_reasoning_tokens := pm.completion_reasoning_tokens +
      sumOptField (fun u => u.completion_reasoning_tokens) usages
    completion_accepted_prediction_tokens := pm.completion_accepted_prediction_tokens +
      sumOptField (fun u => u.completion_accepted_prediction_tokens) usages
    completion_rejected_prediction_tokens := pm.completion_rejected_prediction_tokens +
      sumOptField (fun u => u.completion_rejected_prediction_tokens) usages }

/-- The accumulated `provider_metrics` for one provider group. -/
def providerMetricsFor (costs : ModelCosts)
    (model_groups : List (String × List TokenUsage)) : ProviderMetrics :=
  model_groups.foldl (updateProviderMetrics costs) {}

/-- The `ProviderUsage` entry `_calculate_cost` appends for one provider:
per-model breakdown, rounded total cost, and detail blocks present only when
the corresponding accumulated counts are truthy. -/
def mkProviderUsage (costs : ModelCosts) (provider : String)
    (model_groups : List (String × List TokenUsage)) : ProviderUsage :=
  let pm := providerMetricsFor costs model_groups
  { provider := provider
    models := model_groups.map (fun g => mkModelUsage (rateFor costs g.1) g.1 g.2)
    total_cost := round6 pm.total_cost
    total_tokens := pm.total_tokens
    prompt_tokens := pm.prompt_tokens
    completion_tokens := pm.completion_tokens
    prompt_tokens_details :=
      if intTruthy pm.prompt_cached_input_tokens ||
          intTruthy pm.prompt_cached_creation_tokens ||
          intTruthy pm.prompt_audio_tokens then
        some
          { cached_input_tokens := some pm.prompt_cached_input_tokens
            cached_creation_tokens := some pm.prompt_cached_creation_tokens
            audio_tokens := some pm.prompt_audio_tokens }
      else none
    completion_tokens_details :=
      if intTruthy pm.completion_audio_tokens ||
          intTruthy pm.completion_reasoning_tokens ||
          intTruthy pm.completion_accepted_prediction_tokens ||
          intTruthy pm.completion_rejected_prediction_tokens then
        some
          { audio_tokens := some pm.completion_audio_tokens
            reasoning_tokens := some pm.completion_reasoning_tokens
            accepted_prediction_tokens := some pm.completion_accepted_prediction_tokens
            rejected_prediction_tokens := some pm.completion_rejected_prediction_tokens }
      else none }

/-- `TokenUsageService._calculate_cost`.  The `provider` argument is received
but the provider loop's variable shadows it, so the body never reads it.  The
final `TokenUsageReport` gets the four accumulated `total_metrics` keys
(`total_cost` rounded, the *unrounded* per-provider costs being what was
accumulated), the providers list, and pydantic-default `None` detail
fields. -/
def calculateCost (enabled : Bool) (costs : ModelCosts)
    (usages : List TokenUsage) (_provider : Option String) : TokenUsageReport :=
  if !enabled then TokenUsageReport.empty
  else if costs.isEmpty then TokenUsageReport.empty
  else
    let grouped := groupUsages costs usages
    let finalCosts := grouped.1
    let providers_list := grouped.2.map (fun g => mkProviderUsage finalCosts g.1 g.2)
    { providers := providers_list
      total_cost := round6
        ((grouped.2.map (fun g => (providerMetricsFor finalCosts g.2).total_cost)).sum)
      total_tokens :=
        (grouped.2.map (fun g => (providerMetricsFor finalCosts g.2).total_tokens)).sum
      prompt_tokens :=
        (grouped.2.map (fun g => (providerMetricsFor finalCosts g.2).prompt_tokens)).sum
      completion_tokens :=
        (grouped.2.map (fun g => (providerMetricsFor finalCosts g.2).completion_tokens)).sum }

/-! ## `base_wrapper.py`: the logging guard

The database is embedded as the list of committed rows, in insertion order. -/

/-- Python truthiness of an `Optional[str]`. -/
def optStrTruthy : Option String → Bool
  | none => false
  | some s => s != ""

/-- `BaseWrapper._log_usage_impl`'s row construction: core metrics from the
stats, each detail column set from the corresponding detail block when the
block is present, else `NULL`. -/
def rowFromStats (provider : String) (stats : TokenUsageStats)
    (execution_id : String) (now : Int) : TokenUsage :=
  { execution_id := execution_id
    provider := provider
    model := stats.model
    created_at := now
    total_cost := 0
    prompt_tokens := stats.usage.prompt_tokens
    completion_tokens := stats.usage.completion_tokens
    total_tokens := stats.usage.total_tokens
    prompt_cached_input_tokens :=
      stats.usage.prompt_tokens_details.bind (fun d => d.cached_input_tokens)
    prompt_cached_creation_tokens :=
      stats.usage.prompt_tokens_details.bind (fun d => d.cached_creation_tokens)
    prompt_audio_tokens :=
      stats.usage.prompt_tokens_details.bind (fun d => d.audio_tokens)
    completion_audio_tokens :=
      stats.usage.completion_tokens_details.bind (fun d => d.audio_tokens)
    completion_reasoning_tokens :=
      stats.usage.completion_tokens_details.bind (fun d => d.reasoning_tokens)
    completion_accepted_prediction_tokens :=
      stats.usage.completion_tokens_details.bind (fun d => d.accepted_prediction_tokens)
    completion_rejected_prediction_tokens :=
      stats.usage.completion_tokens_details.bind (fun d => d.rejected_prediction_tokens) }

/-- `BaseWrapper._log_usage`: returns the stored rows unchanged when the
process-wide flag is off; otherwise commits one new row.  `genId` stands for
the fresh `uuid4` used when `execution_id` is falsy (`None` or `""`). -/
def logUsage (enabled : Bool) (provider : String) (db : List TokenUsage)
    (stats : TokenUsageStats) (execution_id : Option String) (genId : String)
    (now : Int) : List TokenUsage :=
  if !enabled then db
  else db ++ [rowFromStats provider stats (orDefaultStr execution_id genId) now]

/-! ## `usage.py`: the query service

Each read operation guards on `state.is_tokenator_enabled` and returns a
default-constructed `TokenUsageReport` when it is off.  Time is embedded as
integer seconds; `datetime.now()` is the explicit `now` argument. -/

/-- `TokenUsageService._query_usage`: rows with `created_at` between the two
bounds (SQL `BETWEEN`, both ends inclusive), optionally filtered by provider
and model (truthy guards), costed with `provider or "all"` passed through. -/
def queryUsage (enabled : Bool) (costs : ModelCosts) (db : List TokenUsage)
    (start_date end_date : Int) (provider model : Option String) :
    TokenUsageReport :=
  if !enabled then TokenUsageReport.empty
  else
    let rows := db.filter (fun u =>
      start_date ≤ u.created_at && u.created_at ≤ end_date &&
      (!optStrTruthy provider || u.provider = provider.getD "") &&
      (!optStrTruthy model || u.model = model.getD ""))
    calculateCost enabled costs rows (some (orDefaultStr provider "all"))

/-- `TokenUsageService.last_hour`. -/
def lastHour (enabled : Bool) (costs : ModelCosts) (db : List TokenUsage)
    (now : Int) (provider model : Option String) : TokenUsageReport :=
  if !enabled then TokenUsageReport.empty
  else queryUsage enabled costs db (now - 3600) now provider model

/-- `TokenUsageService.last_day`. -/
def lastDay (enabled : Bool) (costs : ModelCosts) (db : List TokenUsage)
    (now : Int) (provider model : Option String) : TokenUsageReport :=
  if !enabled then TokenUsageReport.empty
  else queryUsage enabled costs db (now - 86400) now provider model

/-- `TokenUsageService.last_week`. -/
def lastWeek (enabled : Bool) (costs : ModelCosts) (db : List TokenUsage)
    (now : Int) (provider model : Option String) : TokenUsageReport :=
  if !enabled then TokenUsageReport.empty
  else queryUsage enabled costs db (now - 604800) now provider model

/-- `TokenUsageService.last_month` (30 days). -/
def lastMonth (enabled : Bool) (costs : ModelCosts) (db : List TokenUsage)
    (now : Int) (provider model : Option String) : TokenUsageReport :=
  if !enabled then TokenUsageReport.empty
  else queryUsage enabled costs db (now - 2592000) now provider model

/-- `TokenUsageService.between`, datetime-argument case (the string-parsing
convenience branch normalises to datetimes before the same query). -/
def betweenDates (enabled : Bool) (costs : ModelCosts) (db : List TokenUsage)
    (start_date end_date : Int) (provider model : Option String) :
    TokenUsageReport :=
  if !enabled then TokenUsageReport.empty
  else queryUsage enabled costs db start_date end_date provider model

/-- `TokenUsageService.for_execution`: all rows with the given
`execution_id`, costed with the default `provider=None`. -/
def forExecution (enabled : Bool) (costs : ModelCosts) (db : List TokenUsage)
    (execution_id : String) : TokenUsageReport :=
  if !enabled then TokenUsageReport.empty
  else calculateCost enabled costs (db.filter (fun u => u.execution_id = execution_id)) none

/-- `ORDER BY created_at DESC ... first()`: a row with maximal `created_at`
(the first such row on ties). -/
def latestRow (db : List TokenUsage) : Option TokenUsage :=
  db.foldl
    (fun acc u =>
      match acc with
      | none => some u
      | some v => if u.created_at > v.created_at then some u else some v)
    none

/-- `TokenUsageService.last_execution`. -/
def lastExecution (enabled : Bool) (costs : ModelCosts) (db : List TokenUsage) :
    TokenUsageReport :=
  if !enabled then TokenUsageReport.empty
  else
    match latestRow db with
    | some r => forExecution enabled costs db r.execution_id
    | none => TokenUsageReport.empty

/-- `TokenUsageService.all_time`. -/
def allTime (enabled : Bool) (costs : ModelCosts) (db : List TokenUsage) :
    TokenUsageReport :=
  if !enabled then TokenUsageReport.empty
  else calculateCost enabled costs db none

/-! ## Helper lemmas -/

/-- `x or 0` on an optional int coincides with `getD 0`. -/
theorem orDefaultInt_zero (x : Option Int) : orDefaultInt x 0 = x.getD 0 := by
  cases x with
  | none => rfl
  | some n =>
    by_cases h : n = 0 <;> simp [orDefaultInt, h]

/-! ## Concrete instances used by counterexamples and witnesses -/

/-- An Anthropic `usage` block reporting `input_tokens=100`,
`cache_creation_input_tokens=50`, `output_tokens=10`. -/
def auC1 : AnthropicUsage :=
  { input_tokens := 100, output_tokens := 10, cache_creation_input_tokens := some 50 }

/-- A typed Anthropic `Message` carrying `auC1`. -/
def msgC1 : AnthropicMessage := { model := "claude-3-5-sonnet", usage := some auC1 }

/-- The stats the wrapper extracts from `msgC1`. -/
def statsC1 : TokenUsageStats :=
  { model := "claude-3-5-sonnet"
    usage :=
      { prompt_tokens := 150
        completion_tokens := 10
        total_tokens := 110
        prompt_tokens_details :=
          some { cached_input_tokens := none, cached_creation_tokens := some 50 } } }

/-- A usage row with both a cache count and an audio count recorded. -/
def rowC2 : TokenUsage :=
  { execution_id := "e1", provider := "openai", model := "gpt-4o-audio-preview"
    created_at := 0, prompt_tokens := 100, completion_tokens := 40, total_tokens := 140
    prompt_cached_input_tokens := some 30
    prompt_audio_tokens := some 20
    completion_audio_tokens := some 15 }

/-- A usage row with only a cache count recorded. -/
def rowC2b : TokenUsage :=
  { execution_id := "e2", provider := "anthropic", model := "claude-3-5-sonnet"
    created_at := 0, prompt_tokens := 100, completion_tokens := 40, total_tokens := 140
    prompt_cached_input_tokens := some 30 }

/-- An Anthropic usage mapping that *does* contain both cache keys. -/
def dictC9 : AnthropicUsageDict :=
  { input_tokens := some 100, output_tokens := some 5
    cache_read_input_tokens := some 7, cache_creation_input_tokens := some 9 }

/-- A dict-shaped Anthropic response carrying `dictC9`. -/
def respC9 : AnthropicResponseDict := { model := some "claude-3-5-sonnet", usage := some dictC9 }

/-- The stats the wrapper extracts from `respC9`. -/
def statsC9 : TokenUsageStats :=
  { model := "claude-3-5-sonnet"
    usage :=
      { prompt_tokens := 100
        completion_tokens := 5
        total_tokens := 105
        prompt_tokens_details :=
          some { cached_input_tokens := none, cached_creation_tokens := none } } }

/-! ## C1 — Anthropic typed-response usage extraction -/

/-- C1 (amended): for a typed Anthropic `Message`, extraction yields
`prompt_tokens = input_tokens + cache_creation_input_tokens` (defaulted to 0),
`completion_tokens = output_tokens`, the cache counters copied into the
prompt-token details — but `total_tokens = input_tokens + output_tokens`, the
cache-creation count being *excluded* from the total. -/
theorem C1_anthropic_message_cache_accounting
    (m : AnthropicMessage) (u : AnthropicUsage) (s : TokenUsageStats)
    (hu : m.usage = some u) (hs : processAnthropicMessage m = some s) :
    s.usage.prompt_tokens = u.input_tokens + u.cache_creation_input_tokens.getD 0 ∧
    s.usage.completion_tokens = u.output_tokens ∧
    s.usage.total_tokens = u.input_tokens + u.output_tokens ∧
    s.usage.prompt_tokens_details =
      some { cached_input_tokens := u.cache_read_input_tokens
             cached_creation_tokens := u.cache_creation_input_tokens
             audio_tokens := none } := by
  simp only [processAnthropicMessage, hu, Option.some.injEq] at hs
  subst hs
  refine ⟨?_, rfl, rfl, rfl⟩
  simp [orDefaultInt_zero]

/-- C1, counterexample to the claim as stated: on a response with
`input_tokens=100`, `cache_creation_input_tokens=50`, `output_tokens=10`, the
code logs `total_tokens = 110`, not the claimed
`(input + cache-creation) + output = 160`. -/
theorem C1_total_excludes_cache_creation_counterexample :
    (processAnthropicMessage msgC1).map (fun s => s.usage.total_tokens) = some 110 ∧
    ¬ ((110 : Int) = (100 + 50) + 10) :=
  ⟨rfl, by decide⟩

/-- C1, witness: the amended theorem applied to `msgC1` — prompt 150
(additive cache accounting), completion 10, total 110, cached-creation detail
50. -/
theorem C1_anthropic_message_cache_accounting_witness :
    statsC1.usage.prompt_tokens = 100 + (Option.getD (some 50) 0 : Int) ∧
    statsC1.usage.completion_tokens = 10 ∧
    statsC1.usage.total_tokens = 100 + 10 ∧
    statsC1.usage.prompt_tokens_details =
      some { cached_input_tokens := none, cached_creation_tokens := some 50
             audio_tokens := none } :=
  C1_anthropic_message_cache_accounting msgC1 auC1 statsC1 rfl rfl

/-! ## C2 — text-portion token adjustments in the cost computation -/

/-- C2 (amended): the cache and audio adjustments are mutually exclusive and
never additive, but when both counts are recorded it is the *audio*
adjustment that wins (the second sequential reassignment overwrites the
first): audio recorded → `prompt_tokens − prompt_audio_tokens`; else cache
recorded → `prompt_tokens − prompt_cached_input_tokens`; else unchanged.
Completion text tokens subtract the audio count when recorded. -/
theorem C2_text_portion_token_adjustments (u : TokenUsage) :
    (optIntTruthy u.prompt_audio_tokens = true →
      promptTextTokens u = u.prompt_tokens - u.prompt_audio_tokens.getD 0) ∧
    (optIntTruthy u.prompt_audio_tokens = false →
      optIntTruthy u.prompt_cached_input_tokens = true →
      promptTextTokens u = u.prompt_tokens - u.prompt_cached_input_tokens.getD 0) ∧
    (optIntTruthy u.prompt_audio_tokens = false →
      optIntTruthy u.prompt_cached_input_tokens = false →
      promptTextTokens u = u.prompt_tokens) ∧
    (optIntTruthy u.completion_audio_tokens = true →
      completionTextTokens u = u.completion_tokens - u.completion_audio_tokens.getD 0) ∧
    (optIntTruthy u.completion_audio_tokens = false →
      completionTextTokens u = u.completion_tokens) := by
  refine ⟨fun ha => ?_, fun ha hc => ?_, fun ha hc => ?_, fun ha => ?_, fun ha => ?_⟩ <;>
    simp_all [promptTextTokens, completionTextTokens]

/-- C2, counterexample to the claim as stated: on a row recording both
`prompt_cached_input_tokens=30` and `prompt_audio_tokens=20` over
`prompt_tokens=100`, the code computes text prompt tokens `100 − 20 = 80`
(audio wins), not the claimed cache-priority `100 − 30 = 70`. -/
theorem C2_cache_priority_counterexample :
    promptTextTokens rowC2 = 80 ∧
    promptTextTokens rowC2 ≠ rowC2.prompt_tokens - rowC2.prompt_cached_input_tokens.getD 0 := by
  constructor
  · decide
  · decide

/-- C2, witness: the amended theorem applied to `rowC2` (both counts
recorded: audio adjustment) and `rowC2b` (cache only: cache adjustment). -/
theorem C2_text_portion_token_adjustments_witness :
    promptTextTokens rowC2 = rowC2.prompt_tokens - rowC2.prompt_audio_tokens.getD 0 ∧
    promptTextTokens rowC2b = rowC2b.prompt_tokens - rowC2b.prompt_cached_input_tokens.getD 0 ∧
    completionTextTokens rowC2 = rowC2.completion_tokens - rowC2.completion_audio_tokens.getD 0 :=
  ⟨(C2_text_portion_token_adjustments rowC2).1 (by decide),
   (C2_text_portion_token_adjustments rowC2b).2.1 (by decide) (by decide),
   (C2_text_portion_token_adjustments rowC2).2.2.2.1 (by decide)⟩

/-! ## C9 — dict-shaped Anthropic responses never read the cache fields -/

/-- C9: for an Anthropic response presented as a plain mapping, the cache
fields are fetched with attribute access on the dict — which always yields
the default — so `prompt_tokens` is exactly the mapping's `input_tokens`
(defaulted to 0), and both cache detail fields are `None`, whatever cache
keys the mapping contains. -/
theorem C9_anthropic_dict_ignores_cache_fields
    (r : AnthropicResponseDict) (d : AnthropicUsageDict) (s : TokenUsageStats)
    (hd : r.usage = some d) (hs : processAnthropicDict r = some s) :
    s.usage.prompt_tokens = d.input_tokens.getD 0 ∧
    s.usage.total_tokens = d.input_tokens.getD 0 + d.output_tokens.getD 0 ∧
    s.usage.prompt_tokens_details =
      some { cached_input_tokens := none, cached_creation_tokens := none
             audio_tokens := none } := by
  simp only [processAnthropicDict, hd] at hs
  by_cases ht : d.truthy
  · simp only [ht, Bool.not_true, Bool.false_eq_true, if_false, Option.some.injEq,
      reduceIte] at hs
    subst hs
    refine ⟨?_, rfl, rfl⟩
    simp [dictGetattr, orDefaultInt]
  · simp [ht] at hs

/-- C9, witness: applied to `respC9`, whose usage mapping *does* contain
`cache_read_input_tokens=7` and `cache_creation_input_tokens=9`: prompt is
still exactly 100 and both cache details are absent. -/
theorem C9_anthropic_dict_ignores_cache_fields_witness :
    statsC9.usage.prompt_tokens = (Option.getD (some 100) 0 : Int) ∧
    statsC9.usage.total_tokens = (Option.getD (some 100) 0 : Int) + (Option.getD (some 5) 0 : Int) ∧
    statsC9.usage.prompt_tokens_details =
      some { cached_input_tokens := none, cached_creation_tokens := none
             audio_tokens := none } :=
  C9_anthropic_dict_ignores_cache_fields respC9 dictC9 statsC9 rfl rfl

/-! ## C4 — Gemini streaming: last chunk wins -/

/-- First streamed Gemini chunk: cumulative usage 10/5/15. -/
def gchunkA : GeminiChunk :=
  { model_version := "gemini-2.0-flash"
    usage_metadata :=
      some { prompt_token_count := 10, candidates_token_count := some 5
             total_token_count := 15 } }

/-- Final streamed Gemini chunk: cumulative usage 10/20/30, different model
string to exhibit that the model comes from the first chunk. -/
def gchunkB : GeminiChunk :=
  { model_version := "gemini-2.0-flash-final"
    usage_metadata :=
      some { prompt_token_count := 10, candidates_token_count := some 20
             total_token_count := 30 } }

/-- C4: for a fully-drained Gemini stream the logged usage equals the *final*
chunk's `usage_metadata` values alone (`candidates_token_count` defaulted to
0), never a sum across chunks, while the model identifier comes from the
*first* chunk; when the final chunk carries no `usage_metadata`, nothing is
logged. -/
theorem C4_gemini_last_chunk_wins (c0 : GeminiChunk) (rest : List GeminiChunk) :
    (((c0 :: rest).getLast (by simp)).usage_metadata = none →
      geminiUsageCallback true (c0 :: rest) = none) ∧
    (∀ meta, ((c0 :: rest).getLast (by simp)).usage_metadata = some meta →
      geminiUsageCallback true (c0 :: rest) =
        some { model := c0.model_version
               usage := { prompt_tokens := meta.prompt_token_count
                          completion_tokens := meta.candidates_token_count.getD 0
                          total_tokens := meta.total_token_count } }) := by
  constructor
  · intro h
    simp [geminiUsageCallback, h]
  · intro meta h
    simp [geminiUsageCallback, h]

/-- C4, witness: two chunks with increasing cumulative metadata — the logged
row equals only the final chunk's values (10/20/30), with the first chunk's
model string. -/
theorem C4_gemini_last_chunk_wins_witness :
    geminiUsageCallback true [gchunkA, gchunkB] =
      some { model := "gemini-2.0-flash"
             usage := { prompt_tokens := 10, completion_tokens := 20
                        total_tokens := 30 } } :=
  (C4_gemini_last_chunk_wins gchunkA [gchunkB]).2
    { prompt_token_count := 10, candidates_token_count := some 20
      total_token_count := 30 } rfl

/-! ## C5 — OpenAI streaming: sum across usage-carrying chunks -/

/-- A filtered-out list is empty exactly when no element maps to `some`. -/
theorem filterMap_isEmpty_iff_no_some {α β : Type} (f : α → Option β) (l : List α) :
    (l.filterMap f).isEmpty = !l.any (fun a => (f a).isSome) := by
  induction l with
  | nil => rfl
  | cons a t ih => cases h : f a <;> simp [List.filterMap_cons, h, ih]

/-- C5: for a fully-drained OpenAI-style stream, a row is produced exactly
when some chunk carried a non-null `usage`, and its three token counts are
the sums of the corresponding fields over exactly the usage-carrying chunks
(null-usage chunks contribute nothing). -/
theorem C5_openai_sums_usage_chunks (chunks : List OpenAIChunk) :
    ((openaiUsageCallback true chunks).isSome
      = chunks.any (fun c => c.usage.isSome)) ∧
    (∀ s, openaiUsageCallback true chunks = some s →
      s.usage.prompt_tokens =
        ((chunks.filterMap (fun c => c.usage)).map (fun u => u.prompt_tokens)).sum ∧
      s.usage.completion_tokens =
        ((chunks.filterMap (fun c => c.usage)).map (fun u => u.completion_tokens)).sum ∧
      s.usage.total_tokens =
        ((chunks.filterMap (fun c => c.usage)).map (fun u => u.total_tokens)).sum) := by
  cases chunks with
  | nil => exact ⟨rfl, fun s h => by simp [openaiUsageCallback] at h⟩
  | cons c0 rest =>
    by_cases hw : ((c0 :: rest).filterMap (fun c => c.usage)).isEmpty
    · have hany : (c0 :: rest).any (fun c => c.usage.isSome) = false := by
        have := filterMap_isEmpty_iff_no_some (fun c => c.usage) (c0 :: rest)
        rw [hw] at this
        simpa using this.symm
      constructor
      · simp [openaiUsageCallback, hw, hany]
      · intro s h
        simp [openaiUsageCallback, hw] at h
    · have hany : (c0 :: rest).any (fun c => c.usage.isSome) = true := by
        by_contra hx
        have hxf : (c0 :: rest).any (fun c => c.usage.isSome) = false := by
          simpa using hx
        have h2 := filterMap_isEmpty_iff_no_some (fun c => c.usage) (c0 :: rest)
        rw [hxf] at h2
        simp only [Bool.not_false] at h2
        exact hw h2
      constructor
      · simp [openaiUsageCallback, hw, hany]
      · intro s h
        simp only [openaiUsageCallback, hw, Bool.not_true, Bool.false_eq_true, if_false,
          Option.some.injEq, reduceIte] at h
        subst h
        exact ⟨rfl, rfl, rfl⟩

/-- A streamed OpenAI chunk carrying usage 10/20/30. -/
def ochA : OpenAIChunk :=
  { model := "gpt-4o"
    usage := some { prompt_tokens := 10, completion_tokens := 20, total_tokens := 30 } }

/-- The row logged for three copies of `ochA`. -/
def statsC5 : TokenUsageStats :=
  { model := "gpt-4o"
    usage := { prompt_tokens := 30, completion_tokens := 60, total_tokens := 90 } }

/-- C5, witness: three chunks each carrying usage 10/20/30 sum to 30/60/90 in
the logged row. -/
theorem C5_openai_sums_usage_chunks_witness :
    statsC5.usage.prompt_tokens =
      (([ochA, ochA, ochA].filterMap (fun c => c.usage)).map (fun u => u.prompt_tokens)).sum ∧
    statsC5.usage.completion_tokens =
      (([ochA, ochA, ochA].filterMap (fun c => c.usage)).map (fun u => u.completion_tokens)).sum ∧
    statsC5.usage.total_tokens =
      (([ochA, ochA, ochA].filterMap (fun c => c.usage)).map (fun u => u.total_tokens)).sum :=
  (C5_openai_sums_usage_chunks [ochA, ochA, ochA]).2 statsC5 rfl

/-! ## C6 — the sync stream interceptor's drain behaviour -/

/-- Invariant of the per-call replay: from any intermediate state, draining
yields the remaining chunks in order, and the callback fires exactly once,
with the accumulated chunk list, only on graceful exhaustion of a non-empty
accumulation. -/
theorem interceptorRun_spec {χ ε : Type} (hb : Bool) (pending : List χ)
    (failure : Option ε) (st yielded : List χ) (calls : List (List χ)) :
    interceptorRun hb pending failure st yielded calls =
      match failure with
      | some e =>
        { yielded := yielded ++ pending, callbackCalls := calls, outcome := .raised e }
      | none =>
        if hb && !(st ++ pending).isEmpty then
          { yielded := yielded ++ pending, callbackCalls := calls ++ [st ++ pending]
            outcome := .exhausted }
        else
          { yielded := yielded ++ pending, callbackCalls := calls, outcome := .exhausted } := by
  induction pending generalizing st yielded calls with
  | nil =>
    cases failure with
    | some e => simp [interceptorRun]
    | none => simp [interceptorRun]; rw [List.append_nil]
  | cons c t ih =>
    cases failure with
    | some e =>
      simp only [interceptorRun, ih]
      simp
    | none =>
      simp only [interceptorRun, ih]
      simp [List.append_assoc]

/-- C6: draining the intercepted stream yields every chunk of the underlying
stream unchanged and in arrival order; on graceful exhaustion — and only
then — the usage callback is invoked exactly once with the full ordered chunk
list, provided a callback exists and at least one chunk was yielded; an
exception from the underlying stream propagates unmodified with the callback
never invoked. -/
theorem C6_stream_interceptor_drain {χ ε : Type} (hasCallback : Bool)
    (chunks : List χ) (failure : Option ε) :
    runInterceptor hasCallback chunks failure =
      match failure with
      | some e => { yielded := chunks, callbackCalls := [], outcome := .raised e }
      | none =>
        if hasCallback && !chunks.isEmpty then
          { yielded := chunks, callbackCalls := [chunks], outcome := .exhausted }
        else
          { yielded := chunks, callbackCalls := [], outcome := .exhausted } := by
  have h := interceptorRun_spec hasCallback chunks failure [] [] []
  simpa [runInterceptor] using h

/-! ## C3 — pricing-key resolution -/

/-- The head of a filtered list is the first element satisfying the
predicate. -/
theorem head?_filter {α : Type} (pred : α → Bool) (l : List α) :
    (l.filter pred).head? = l.find? pred := by
  induction l with
  | nil => rfl
  | cons a t ih => by_cases h : pred a <;> simp [List.filter_cons, h, ih]

/-- Appending an entry to a table where the key is absent makes the lookup
fall through to the new entry. -/
theorem find?_key_append_none {α : Type} (l : List (String × α)) (key : String)
    (e : String × α) (h : l.find? (fun kv => kv.1 = key) = none) :
    (l ++ [e]).find? (fun kv => kv.1 = key) = [e].find? (fun kv => kv.1 = key) := by
  induction l with
  | nil => simp
  | cons kv t ih =>
    rw [List.cons_append]
    by_cases hk : kv.1 = key
    · simp [List.find?, hk] at h
    · have hd : (decide (kv.1 = key)) = false := by simp [hk]
      simp only [List.find?, hd, cond_false] at h ⊢
      exact ih h

/-- Registering a rate under an absent key makes that key resolve to the
registered rate. -/
theorem lookupRate_append_of_none {costs : ModelCosts} {m : String} (r : TokenRate)
    (h : lookupRate costs m = none) :
    lookupRate (costs ++ [(m, r)]) m = some r := by
  unfold lookupRate at h ⊢
  have hf : costs.find? (fun kv => kv.1 = m) = none := by
    cases hx : costs.find? (fun kv => kv.1 = m) with
    | none => rfl
    | some v => rw [hx] at h; simp at h
  rw [find?_key_append_none _ _ _ hf]
  simp [List.find?]

/-- C3: pricing-key resolution follows the priority order — the row's model
verbatim when it is a pricing key; else `"<provider>/<model>"` when that is;
else the first pricing key containing the model as a substring; else the
`GPT4O_PRICING` fallback is registered under the bare model string, after
which a subsequent row with the same model (any provider) resolves verbatim
to the registered entry. -/
theorem C3_pricing_key_resolution (costs : ModelCosts) (p m : String) :
    ((lookupRate costs m).isSome = true → resolveModelKey costs p m = (m, costs)) ∧
    (lookupRate costs m = none →
      (lookupRate costs (p ++ "/" ++ m)).isSome = true →
      resolveModelKey costs p m = (p ++ "/" ++ m, costs)) ∧
    (lookupRate costs m = none →
      lookupRate costs (p ++ "/" ++ m) = none →
      ∀ k, (costs.map Prod.fst).find? (fun key => containsSubstr m key) = some k →
        resolveModelKey costs p m = (k, costs)) ∧
    (lookupRate costs m = none →
      lookupRate costs (p ++ "/" ++ m) = none →
      (costs.map Prod.fst).find? (fun key => containsSubstr m key) = none →
      resolveModelKey costs p m = (m, costs ++ [(m, GPT4O_PRICING)]) ∧
      ∀ p', resolveModelKey (costs ++ [(m, GPT4O_PRICING)]) p' m =
        (m, costs ++ [(m, GPT4O_PRICING)])) := by
  refine ⟨fun hm => ?_, fun h1 h2 => ?_, fun h1 h2 k hfind => ?_, fun h1 h2 hfind => ?_⟩
  · simp [resolveModelKey, hm]
  · simp [resolveModelKey, h1, h2]
  · have hh := head?_filter (fun key => containsSubstr m key) (costs.map Prod.fst)
    rw [hfind] at hh
    cases hfl : (costs.map Prod.fst).filter (fun key => containsSubstr m key) with
    | nil => rw [hfl] at hh; simp at hh
    | cons a t =>
      rw [hfl] at hh
      simp at hh
      subst hh
      simp [resolveModelKey, h1, h2, hfl]
  · have hh := head?_filter (fun key => containsSubstr m key) (costs.map Prod.fst)
    rw [hfind] at hh
    have hfl : (costs.map Prod.fst).filter (fun key => containsSubstr m key) = [] := by
      cases hx : (costs.map Prod.fst).filter (fun key => containsSubstr m key) with
      | nil => rfl
      | cons a t => rw [hx] at hh; simp at hh
    constructor
    · simp [resolveModelKey, h1, h2, hfl]
    · intro p'
      have hreg := lookupRate_append_of_none GPT4O_PRICING h1
      simp [resolveModelKey, hreg]

/-- A one-entry pricing table for the resolution witness. -/
def costsC3 : ModelCosts := [("gpt-4o", GPT4O_PRICING)]

/-- C3, witness: the verbatim branch (`"gpt-4o"`), the fuzzy-containment
branch (`"4o"` matches `"gpt-4o"`), and the fallback branch (`"my-model"` is
registered under its bare name and a subsequent row with another provider
resolves to the registered entry). -/
theorem C3_pricing_key_resolution_witness :
    resolveModelKey costsC3 "openai" "gpt-4o" = ("gpt-4o", costsC3) ∧
    resolveModelKey costsC3 "openai" "4o" = ("gpt-4o", costsC3) ∧
    resolveModelKey costsC3 "prov" "my-model" =
      ("my-model", costsC3 ++ [("my-model", GPT4O_PRICING)]) ∧
    resolveModelKey (costsC3 ++ [("my-model", GPT4O_PRICING)]) "other-prov" "my-model" =
      ("my-model", costsC3 ++ [("my-model", GPT4O_PRICING)]) :=
  ⟨(C3_pricing_key_resolution costsC3 "openai" "gpt-4o").1 (by decide),
   (C3_pricing_key_resolution costsC3 "openai" "4o").2.2.1 (by decide) (by decide)
     "gpt-4o" (by decide),
   ((C3_pricing_key_resolution costsC3 "prov" "my-model").2.2.2 (by decide) (by decide)
     (by decide)).1,
   ((C3_pricing_key_resolution costsC3 "prov" "my-model").2.2.2 (by decide) (by decide)
     (by decide)).2 "other-prov"⟩

/-! ## C7 — disabled-state no-op -/

/-- C7: with the process-wide enabled flag off, logging returns the stored
rows unchanged and every query-service read operation returns the
default-constructed report — all-zero metrics, no detail blocks, empty
providers list — without error. -/
theorem C7_disabled_state_noop (provider : String) (costs : ModelCosts)
    (db : List TokenUsage) (stats : TokenUsageStats) (eid : Option String)
    (gid : String) (now s e : Int) (p m : Option String) (xid : String) :
    logUsage false provider db stats eid gid now = db ∧
    queryUsage false costs db s e p m = TokenUsageReport.empty ∧
    lastHour false costs db now p m = TokenUsageReport.empty ∧
    lastDay false costs db now p m = TokenUsageReport.empty ∧
    lastWeek false costs db now p m = TokenUsageReport.empty ∧
    lastMonth false costs db now p m = TokenUsageReport.empty ∧
    betweenDates false costs db s e p m = TokenUsageReport.empty ∧
    forExecution false costs db xid = TokenUsageReport.empty ∧
    lastExecution false costs db = TokenUsageReport.empty ∧
    allTime false costs db = TokenUsageReport.empty ∧
    TokenUsageReport.empty =
      { total_cost := 0, total_tokens := 0, prompt_tokens := 0, completion_tokens := 0
        prompt_tokens_details := none, completion_tokens_details := none
        providers := [] } :=
  ⟨rfl, rfl, rfl, rfl, rfl, rfl, rfl, rfl, rfl, rfl, rfl⟩

/-! ## C10 — top-level detail fields of the cost report are always absent -/

/-- C10: every report `_calculate_cost` returns has `none` for both top-level
detail fields, whatever detail breakdowns its nested provider and model
entries carry; only the four plain metrics are aggregated at the top level. -/
theorem C10_top_level_details_absent (enabled : Bool) (costs : ModelCosts)
    (usages : List TokenUsage) (p : Option String) :
    (calculateCost enabled costs usages p).prompt_tokens_details = none ∧
    (calculateCost enabled costs usages p).completion_tokens_details = none := by
  cases enabled with
  | false => exact ⟨rfl, rfl⟩
  | true =>
    by_cases hc : costs.isEmpty
    · simp [calculateCost, hc, TokenUsageReport.empty]
    · simp [calculateCost, hc]

/-! ## C8 — the `provider` argument of `_calculate_cost` has no effect -/

/-- Provider keys produced by one grouping step either were already present
or are the new row's provider key. -/
theorem mem_keys_addToProviderGroups (gs : ProviderModelUsages) (pkey key : String)
    (u : TokenUsage) :
    ∀ q ∈ (addToProviderGroups gs pkey key u).map Prod.fst,
      q ∈ gs.map Prod.fst ∨ q = pkey := by
  induction gs with
  | nil =>
    intro q hq
    simp [addToProviderGroups] at hq
    right; exact hq
  | cons g t ih =>
    obtain ⟨gp, gm⟩ := g
    intro q hq
    by_cases hp : gp = pkey
    · subst hp
      simp [addToProviderGroups] at hq
      rcases hq with h | h
      · left; simp [h]
      · left; simp [h]
    · simp [addToProviderGroups, hp] at hq
      rcases hq with h | h
      · left; simp [h]
      · rcases ih q (by simpa using h) with h1 | h2
        · left; simp [List.mem_cons]; right; simpa using h1
        · right; exact h2

/-- Every provider key accumulated by the grouping fold is either inherited
from the initial accumulator or the provider key of some processed row. -/
theorem providerKeys_foldl (usages : List TokenUsage) :
    ∀ (start : ModelCosts × ProviderModelUsages) (q : String),
      q ∈ (usages.foldl groupStep start).2.map Prod.fst →
      q ∈ start.2.map Prod.fst ∨
        ∃ u ∈ usages, q = (if strTruthy u.provider then u.provider else "default") := by
  induction usages with
  | nil =>
    intro start q hq
    left; exact hq
  | cons u t ih =>
    intro start q hq
    rw [List.foldl_cons] at hq
    rcases ih (groupStep start u) q hq with hin | ⟨v, hv, hqv⟩
    · rcases mem_keys_addToProviderGroups start.2 _ _ u q hin with h1 | h2
      · left; exact h1
      · right; exact ⟨u, by simp, h2⟩
    · right; exact ⟨v, by simp [hv], hqv⟩

/-- C8: `_calculate_cost` never reads its `provider` argument — two runs with
different provider arguments return identical reports — and every provider
name appearing in the report comes from some row's own provider field
(defaulted to `"default"` when empty). -/
theorem C8_provider_argument_has_no_effect (enabled : Bool) (costs : ModelCosts)
    (usages : List TokenUsage) (p1 p2 : Option String) :
    calculateCost enabled costs usages p1 = calculateCost enabled costs usages p2 ∧
    ∀ name ∈ (calculateCost enabled costs usages p1).providers.map
      (fun pu => pu.provider),
      ∃ u ∈ usages, name = (if strTruthy u.provider then u.provider else "default") := by
  refine ⟨rfl, ?_⟩
  intro name hname
  cases enabled with
  | false => simp [calculateCost, TokenUsageReport.empty] at hname
  | true =>
    by_cases hc : costs.isEmpty
    · simp [calculateCost, hc, TokenUsageReport.empty] at hname
    · simp only [calculateCost, hc, Bool.not_true, Bool.false_eq_true, if_false,
        reduceIte, List.map_map] at hname
      rcases List.mem_map.1 hname with ⟨g, hg, hname'⟩
      have hkey : (g.1 : String) ∈ (groupUsages costs usages).2.map Prod.fst :=
        List.mem_map.2 ⟨g, hg, rfl⟩
      rcases providerKeys_foldl usages (costs, []) g.1 hkey with h1 | h2
      · simp at h1
      · rcases h2 with ⟨u, hu, hqu⟩
        exact ⟨u, hu, by rw [← hname']; simpa [mkProviderUsage] using hqu⟩

/-- A trivial one-entry pricing table for the C8 witness. -/
def costsC8 : ModelCosts := [("m1", { prompt := 0, completion := 0 })]

/-- A row with an empty provider field. -/
def rowC8 : TokenUsage :=
  { execution_id := "e", provider := "", model := "m1", created_at := 0
    prompt_tokens := 10, completion_tokens := 5, total_tokens := 15 }

/-- C8, witness: two runs over the same rows with different provider
arguments coincide, and the reported provider name `"default"` traces back to
the row's empty provider field. -/
theorem C8_provider_argument_has_no_effect_witness :
    calculateCost true costsC8 [rowC8] (some "openai") =
      calculateCost true costsC8 [rowC8] none ∧
    ∃ u ∈ [rowC8], "default" = (if strTruthy u.provider then u.provider else "default") :=
  ⟨(C8_provider_argument_has_no_effect true costsC8 [rowC8] (some "openai") none).1,
   (C8_provider_argument_has_no_effect true costsC8 [rowC8] (some "openai") none).2
     "default" (by decide)⟩

end Tokenator
